import Mathlib

/-!
Shallow embedding of `Photobooth.py` (Woyvch/Photobooth).

The program is a single-threaded kiosk loop.  We model its observable
behaviour as pure functions that return traces of hardware/filesystem
events (`Ev`).  Overlay handles are modelled by `Handle`; a fresh-id
counter is threaded through every function that creates an overlay so
that each created overlay is identified by a unique `uid`.
-/

/-- Observable events emitted by the program: camera, GPIO, filesystem
and log actions, in program order. -/
inductive Ev : Type where
  | createOverlay (imageName : String) (layer : Nat) (uid : Nat)
  | removeOverlay (uid : Nat)
  | setAlpha (uid : Nat) (alpha : Nat)
  | annotate (text : String)
  | sleepSec (seconds : Nat)
  | sleepTenth
  | capture (filename : String)
  | startPreview
  | stopPreview
  | gpioCleanup
  | ledOut (value : Nat)
  | exitProcess
  | logInfo (msg : String)
  | logWarn (msg : String)
  | logError (msg : String)
  deriving DecidableEq, Repr

/-- Overlay handle: Python `overlay_image` returns either the sentinel
`-1` ("no overlay") or the live overlay object (here: its unique id and
the layer stored into `o.id`). -/
inductive Handle : Type where
  | sentinel
  | ov (uid : Nat) (layer : Nat)
  deriving DecidableEq, Repr

/-- Embeds `remove_overlay` (Photobooth.py lines 84-88): no-op on the
sentinel `-1`, otherwise removes the overlay and logs its `id` field
(which `overlay_image` set to the layer number). -/
def remove_overlay : Handle → List Ev
  | Handle.sentinel => []
  | Handle.ov uid layer =>
      [Ev.removeOverlay uid, Ev.logInfo ("Removed overlay " ++ toString layer)]

/-- Embeds `overlay_image` (lines 56-82): creates an overlay of the named
image at the given layer; if `duration > 0` it sleeps, removes the
overlay again and returns the sentinel, otherwise it returns the live
handle.  `fresh` is the next unused uid; the returned `Nat` is the
updated fresh counter. -/
def overlay_image (imageName : String) (duration : Nat) (layer : Nat)
    (fresh : Nat) : List Ev × Handle × Nat :=
  let createEvs : List Ev :=
    [Ev.createOverlay imageName layer fresh,
     Ev.logInfo ("Created overlay " ++ imageName)]
  if duration > 0 then
    (createEvs ++ [Ev.sleepSec duration]
       ++ remove_overlay (Handle.ov fresh layer), Handle.sentinel, fresh + 1)
  else
    (createEvs, Handle.ov fresh layer, fresh + 1)

/-- Padded buffer width from `overlay_image` line 62: `((w + 31) // 32) * 32`. -/
def pad_width (w : Nat) : Nat := ((w + 31) / 32) * 32

/-- Padded buffer height from `overlay_image` line 63: `((h + 15) // 16) * 16`. -/
def pad_height (h : Nat) : Nat := ((h + 15) / 16) * 16

/-- The geometry of the buffer submitted by `overlay_image` (lines 59-69):
the padded buffer dimensions and the display size passed to
`camera.add_overlay(pad.tobytes(), size=img.size)`, which is the
original image size. -/
structure OverlaySubmission : Type where
  padW : Nat
  padH : Nat
  dispW : Nat
  dispH : Nat
  layer : Nat
  deriving DecidableEq, Repr

/-- Embeds the buffer-geometry part of `overlay_image` for an input image
of size `(w, h)`. -/
def overlay_image_submission (w h layer : Nat) : OverlaySubmission :=
  { padW := pad_width w
    padH := pad_height h
    dispW := w
    dispH := h
    layer := layer }

/-- Embeds the loop body of `set_default_path` (lines 94-104): thread the
`photo_path` variable through the directory listing.  Each iteration
overwrites `photo_path` with the candidate; if the candidate does not
exist and `makedirs` fails, `photo_path` is reset to `""`.
`ex d` models `os.path.exists d`, `mk d` models `os.makedirs d`
succeeding. -/
def resolve_loop (ex mk : String → Bool) : String → List String → String
  | photo_path, [] => photo_path
  | _, d :: rest =>
      let p := "/media/pi/" ++ d ++ "/photobooth/"
      let p' := if ex p then p else (if mk p then p else "")
      resolve_loop ex mk p' rest

/-- Embeds `set_default_path` (lines 90-109): run the loop over the
listing of `/media/pi/`, then fall back to `<script_dir>/photobooth/`
when the resulting path is empty. -/
def set_default_path (script_dir : String) (listing : List String)
    (ex mk : String → Bool) : String :=
  let photo_path := resolve_loop ex mk "" listing
  if photo_path = "" then script_dir ++ "/photobooth/" else photo_path

/-- Chars of the timestamp up to the first `'.'`: embeds
`str(datetime.datetime.now()).split('.')[0]` in `set_filename`
(line 113), which drops the sub-second part. -/
def strip_subsecond (s : List Char) : List Char := s.takeWhile (fun c => c ≠ '.')

/-- Single-character replacement, the semantics of Python
`str.replace(old, new)` for one-character arguments. -/
def replace_char (old new : Char) (s : List Char) : List Char :=
  s.map (fun c => if c = old then new else c)

/-- Embeds `set_filename` (lines 111-116): strip sub-second precision,
replace spaces with underscores, then colons with hyphens.  The current
wall-clock reading `str(datetime.datetime.now())` is the argument. -/
def set_filename (now : String) : String :=
  ⟨replace_char ':' '-' (replace_char ' ' '_' (strip_subsecond now.data))⟩

/-- Embeds `take_photo` (lines 123-133): build the target filename,
run the 3-2-1 countdown writing the on-screen annotation and sleeping
one second per tick, clear the annotation, capture once, log. -/
def take_photo (photo_number : Nat) (filepath stem : String) : List Ev :=
  let filename := filepath ++ stem ++ "_" ++ toString photo_number ++ "of3.jpg"
  (([3, 2, 1] : List Nat).foldl
      (fun tr counter =>
        tr ++ [Ev.annotate ("             ..." ++ toString counter), Ev.sleepSec 1])
      [])
    ++ [Ev.annotate "", Ev.capture filename,
        Ev.logInfo ("Photo " ++ toString photo_number ++ " saved")]

/-- Embeds `photo_screen` (lines 118-121): show the get-ready overlay for
2 seconds (auto-removed, so the trailing `remove_overlay` call receives
the sentinel and is a no-op). -/
def photo_screen (photo_number : Nat) (fresh : Nat) : List Ev × Nat :=
  match overlay_image ("Assets/get_ready_" ++ toString photo_number ++ ".png") 2 3 fresh with
  | (evs, h, fresh1) => (evs ++ remove_overlay h, fresh1)

/-- One iteration of the playback loop body (lines 141-148): show this
photo's overlay at layer `3 + total_pics`, then remove the previous
photo's overlay (Python `if prev_overlay:` — initially `False`, modelled
as `none`), then sleep 2 seconds.  State is (trace, previous handle,
fresh counter). -/
def playback_iter (total_pics : Nat) (filepath stem : String)
    (st : List Ev × Option Handle × Nat) (photo_number : Nat) :
    List Ev × Option Handle × Nat :=
  match st with
  | (tr, prev, fresh) =>
    let filename := filepath ++ stem ++ "_" ++ toString photo_number
        ++ "of" ++ toString total_pics ++ ".jpg"
    match overlay_image filename 0 (3 + total_pics) fresh with
    | (evs, this, fresh1) =>
      let evsRem : List Ev :=
        match prev with
        | some h => remove_overlay h
        | none => []
      (tr ++ evs ++ evsRem ++ [Ev.sleepSec 2], some this, fresh1)

/-- Embeds `playback` (lines 135-151): a 2-second processing overlay,
the overlapping photo-overlay loop over photo numbers `1..total_pics`,
removal of the final photo's overlay, then a 2-second all-done overlay
at layer 4. -/
def playback (total_pics : Nat) (filepath stem : String) (fresh : Nat) :
    List Ev × Nat :=
  match overlay_image "Assets/processing.png" 2 3 fresh with
  | (evsProc, _, fresh1) =>
    match (List.range' 1 total_pics).foldl
        (playback_iter total_pics filepath stem) ([], none, fresh1) with
    | (tr, prev, fresh2) =>
      let evsRem : List Ev :=
        match prev with
        | some h => remove_overlay h
        | none => []
      match overlay_image "Assets/all_done.png" 2 4 fresh2 with
      | (evsDone, _, fresh3) =>
        (evsProc ++ tr ++ evsRem ++ evsDone, fresh3)

/-- One iteration of the capture for-loop in `main` (lines 192-196):
`photo_screen(frame); take_photo(frame, ...); frame += 1`.  State is
(trace, frame, fresh counter, loop variable `i`); the loop stores the
iteration index into `i`, the same variable the idle loop uses as its
tick counter. -/
def capture_iter (filepath stem : String)
    (st : List Ev × Nat × Nat × Nat) (i : Nat) : List Ev × Nat × Nat × Nat :=
  match st with
  | (tr, frame, fresh, _) =>
    match photo_screen frame fresh with
    | (evs, fresh1) =>
      (tr ++ evs ++ take_photo frame filepath stem, frame + 1, fresh1, i)

/-- Result of one full button-press session in `main` (lines 180-200):
the emitted trace, the two freshly created intro overlay handles, the
updated fresh counter and the final value of the loop variable `i`
left behind by `for i in range(3)`. -/
structure SessionResult : Type where
  trace : List Ev
  intro1 : Handle
  intro2 : Handle
  fresh : Nat
  iFinal : Nat
  deriving Repr

/-- Embeds the body of `main`'s while-loop after a falling edge is
detected (lines 180-200): remove both intro overlays, take 3 photos
(`frame` runs 1,2,3), run playback, and re-create the two intro
overlays.  `filepath` and `stem` are the results of `set_default_path`
and `set_filename`; `intro1`, `intro2` are the intro overlays live when
the button was pressed. -/
def session (filepath stem : String) (intro1 intro2 : Handle)
    (fresh : Nat) : SessionResult :=
  let evs0 := [Ev.logInfo "Button is pressed!"]
      ++ remove_overlay intro1 ++ remove_overlay intro2
  match (List.range 3).foldl (capture_iter filepath stem) ([], 1, fresh, 0) with
  | (trLoop, _, fresh1, iFinal) =>
    match playback 3 filepath stem fresh1 with
    | (trPlay, fresh2) =>
      match overlay_image "Assets/intro_1.png" 0 3 fresh2 with
      | (evsI1, h1, fresh3) =>
        match overlay_image "Assets/intro_2.png" 0 4 fresh3 with
        | (evsI2, h2, fresh4) =>
          { trace := evs0 ++ trLoop ++ trPlay ++ evsI1 ++ evsI2
            intro1 := h1
            intro2 := h2
            fresh := fresh4
            iFinal := iFinal }

/-- How a program run ends during startup, or proceeds. -/
inductive Outcome : Type where
  | exitStartupButton
  | exitCameraError
  | enteredIdleLoop
  deriving DecidableEq, Repr

/-- Embeds process startup (lines 31-52 and the prelude of `main`,
lines 153-160): after GPIO setup, if the trigger input reads low the
process logs and raises `SystemExit` before the camera is initialised;
otherwise the camera is initialised (exiting on failure) and `main`
starts the preview and creates the two intro overlays, entering the
idle loop. -/
def program_startup (buttonLowAtStart : Bool) (cameraOk : Bool)
    (fresh : Nat) : List Ev × Outcome :=
  if buttonLowAtStart then
    ([Ev.logInfo "Exiting - the button was pressed during startup"],
     Outcome.exitStartupButton)
  else if cameraOk = false then
    ([Ev.logError "Error initializing the camera"], Outcome.exitCameraError)
  else
    match overlay_image "Assets/intro_1.png" 0 3 fresh with
    | (evsI1, _, fresh1) =>
      match overlay_image "Assets/intro_2.png" 0 4 fresh1 with
      | (evsI2, _, _) =>
        ([Ev.logInfo "Main program started", Ev.startPreview] ++ evsI1 ++ evsI2,
         Outcome.enteredIdleLoop)

/-- The two ways the infinite `main` loop can be left, per the
`__main__` handler (lines 202-213): an operator `KeyboardInterrupt`
or any other exception. -/
inductive Fault : Type where
  | keyboardInterrupt
  | exception (msg : String)
  deriving DecidableEq, Repr

/-- The log event the `__main__` handler emits for a fault:
`logging.warning` for `KeyboardInterrupt`, `logging.error` otherwise
(lines 205-208). -/
def fault_log : Fault → Ev
  | Fault.keyboardInterrupt => Ev.logWarn "keyboard interrupt"
  | Fault.exception m => Ev.logError ("Unexpected error: " ++ m)

/-- The unconditional `finally` cleanup of the `__main__` handler
(lines 209-213): log, stop the preview, release the GPIO claims, exit. -/
def cleanup_trace : List Ev :=
  [Ev.logInfo "End of session", Ev.stopPreview, Ev.gpioCleanup, Ev.exitProcess]

/-- Embeds the `__main__` block (lines 202-213): whatever trace `main`
produced before the fault, followed by the fault-specific log line and
the one-shot cleanup-and-exit. -/
def run_program (mainTrace : List Ev) (fault : Fault) : List Ev :=
  mainTrace ++ [fault_log fault] ++ cleanup_trace

/-- The blink-period constant of the idle loop (line 163). -/
def blink_speed : Nat := 10

/-- State of the idle loop: the tick counter `i`, the alpha value of the
second intro overlay, and the value driven onto the arcade-LED pin. -/
structure IdleState : Type where
  i : Nat
  alpha : Nat
  led : Nat
  deriving DecidableEq, Repr

/-- Embeds one edge-less iteration of the idle loop (lines 166-179):
increment `i`; at `i == blink_speed` set alpha 255 and LED on; at
`i == 2 * blink_speed` set alpha 0, LED off, and reset `i` to 0. -/
def idle_step : IdleState → IdleState
  | ⟨i0, alpha, led⟩ =>
    let i := i0 + 1
    if i = blink_speed then ⟨i, 255, 1⟩
    else if i = 2 * blink_speed then ⟨0, 0, 0⟩
    else ⟨i, alpha, led⟩

/-- Filenames written by `camera.capture` over a trace. -/
def capturesOf (t : List Ev) : List String :=
  t.filterMap (fun e =>
    match e with
    | Ev.capture f => some f
    | _ => none)

/-- Uids of the overlays created over a trace. -/
def createdUids (t : List Ev) : List Nat :=
  t.filterMap (fun e =>
    match e with
    | Ev.createOverlay _ _ u => some u
    | _ => none)

/-- Image names of the overlays created over a trace. -/
def createdNames (t : List Ev) : List String :=
  t.filterMap (fun e =>
    match e with
    | Ev.createOverlay n _ _ => some n
    | _ => none)

/-- Uids of the overlays removed over a trace. -/
def releasedUids (t : List Ev) : List Nat :=
  t.filterMap (fun e =>
    match e with
    | Ev.removeOverlay u => some u
    | _ => none)

/-- Number of creation events with uid in `[lo, hi]` in a trace. -/
def createCountIn (lo hi : Nat) (t : List Ev) : Nat :=
  (t.filter (fun e =>
    match e with
    | Ev.createOverlay _ _ u => decide (lo ≤ u ∧ u ≤ hi)
    | _ => false)).length

/-- Number of removal events with uid in `[lo, hi]` in a trace. -/
def removeCountIn (lo hi : Nat) (t : List Ev) : Nat :=
  (t.filter (fun e =>
    match e with
    | Ev.removeOverlay u => decide (lo ≤ u ∧ u ≤ hi)
    | _ => false)).length

/-- Number of live overlays with uid in `[lo, hi]` after a trace:
creations minus removals. -/
def liveCount (lo hi : Nat) (t : List Ev) : Nat :=
  createCountIn lo hi t - removeCountIn lo hi t

/-- Truth of `e` being the creation event of overlay `u`. -/
def isCreateOf (u : Nat) : Ev → Bool
  | Ev.createOverlay _ _ v => v = u
  | _ => false

/-- Truth of `e` being the removal event of overlay `u`. -/
def isRemoveOf (u : Nat) : Ev → Bool
  | Ev.removeOverlay v => v = u
  | _ => false

/-- C5: for every input image of width `w` and height `h`, `overlay_image`
pads the buffer width to the least multiple of 32 that is at least `w`
and the height to the least multiple of 16 that is at least `h`, while
the overlay is submitted for display at the original `(w, h)`. -/
theorem c5_overlay_padding (w h layer : Nat) :
    (overlay_image_submission w h layer).padW % 32 = 0 ∧
    w ≤ (overlay_image_submission w h layer).padW ∧
    (∀ m : Nat, m % 32 = 0 → w ≤ m → (overlay_image_submission w h layer).padW ≤ m) ∧
    (overlay_image_submission w h layer).padH % 16 = 0 ∧
    h ≤ (overlay_image_submission w h layer).padH ∧
    (∀ m : Nat, m % 16 = 0 → h ≤ m → (overlay_image_submission w h layer).padH ≤ m) ∧
    (overlay_image_submission w h layer).dispW = w ∧
    (overlay_image_submission w h layer).dispH = h := by
  refine ⟨?_, ?_, ?_, ?_, ?_, ?_, rfl, rfl⟩ <;>
    simp only [overlay_image_submission, pad_width, pad_height] <;> omega

/-- C5 witness: instantiating the padding theorem at a 33×17 image and
the candidate multiples 64 and 32. -/
theorem c5_overlay_padding_witness :
    (overlay_image_submission 33 17 3).padW ≤ 64 ∧
    (overlay_image_submission 33 17 3).padH ≤ 32 :=
  ⟨(c5_overlay_padding 33 17 3).2.2.1 64 (by decide) (by decide),
   (c5_overlay_padding 33 17 3).2.2.2.2.2.1 32 (by decide) (by decide)⟩

/-- Auxiliary: `takeWhile` keeps an entire block all of whose elements
satisfy the predicate and stops at the first failing element. -/
theorem takeWhile_append_cons_stop (p : Char → Bool) (l r : List Char) (c : Char)
    (hl : ∀ x ∈ l, p x = true) (hc : p c = false) :
    (l ++ c :: r).takeWhile p = l := by
  induction l with
  | nil => simp [List.takeWhile_cons, hc]
  | cons a l ih =>
      have ha : p a = true := hl a (List.mem_cons_self a l)
      simp [List.takeWhile_cons, ha, ih (fun x hx => hl x (List.mem_cons_of_mem a hx))]

/-- C8: `set_filename` is deterministic in the timestamp, its result
contains neither a space nor a colon, and appending any sub-second part
after a `'.'` to a dot-free timestamp does not change the stem. -/
theorem c8_set_filename_clean :
    (∀ now : String, set_filename now = set_filename now) ∧
    (∀ now : String, ∀ c ∈ (set_filename now).data, c ≠ ' ' ∧ c ≠ ':') ∧
    (∀ t frac : String, '.' ∉ t.data →
      set_filename ⟨t.data ++ '.' :: frac.data⟩ = set_filename t) := by
  refine ⟨fun _ => rfl, ?_, ?_⟩
  · intro now c hc
    simp only [set_filename, replace_char, List.mem_map] at hc
    obtain ⟨b, ⟨a, _, rfl⟩, rfl⟩ := hc
    constructor <;> split_ifs <;> simp_all
  · intro t frac ht
    have h1 : strip_subsecond (t.data ++ '.' :: frac.data) = t.data := by
      apply takeWhile_append_cons_stop
      · intro x hx
        simp only [decide_eq_true_eq]
        exact fun h => ht (h ▸ hx)
      · simp
    have h2 : strip_subsecond t.data = t.data := by
      rw [strip_subsecond, List.takeWhile_eq_self_iff]
      intro x hx
      simp only [decide_eq_true_eq]
      exact fun h => ht (h ▸ hx)
    simp only [set_filename, h1, h2]

/-- C8 witness: the stem of the dotted timestamp equals the stem of the
dot-free one, and a concrete character of the result is neither a space
nor a colon. -/
theorem c8_set_filename_clean_witness :
    ('2' ≠ ' ' ∧ '2' ≠ ':') ∧
    set_filename ⟨("2024-01-01 12:00:00").data ++ '.' :: ("123456").data⟩ =
      set_filename "2024-01-01 12:00:00" :=
  ⟨c8_set_filename_clean.2.1 "2024-01-01 12:00:00.123456" '2' (by decide),
   c8_set_filename_clean.2.2 "2024-01-01 12:00:00" "123456" (by decide)⟩

/-- C1 counterexample: a listing `["usbA", "usbB"]` in which exactly one
mount (`usbA`, the first) accepts its `photobooth/` subdirectory and the
other fails.  The claim says that one succeeding mount's path is
returned; the code returns the fallback path instead, because the loop
overwrites `photo_path` on every iteration and the failing last mount
resets it to the empty string. -/
theorem c1_counterexample :
    (((fun p => p == "/media/pi/usbA/photobooth/") "/media/pi/usbA/photobooth/"
        || (fun _ : String => false) "/media/pi/usbA/photobooth/") = true) ∧
    (((fun p => p == "/media/pi/usbA/photobooth/") "/media/pi/usbB/photobooth/"
        || (fun _ : String => false) "/media/pi/usbB/photobooth/") = false) ∧
    set_default_path "/home/pi/scripts" ["usbA", "usbB"]
        (fun p => p == "/media/pi/usbA/photobooth/") (fun _ => false)
      = "/home/pi/scripts/photobooth/" ∧
    ((set_default_path "/home/pi/scripts" ["usbA", "usbB"]
        (fun p => p == "/media/pi/usbA/photobooth/") (fun _ => false)
      == "/media/pi/usbA/photobooth/") = false) := by
  refine ⟨rfl, rfl, by decide, by decide⟩

/-- Auxiliary: the loop of `set_default_path` is decided entirely by the
last listing entry, whatever the accumulated path was before. -/
theorem resolve_loop_concat (ex mk : String → Bool) (l : List String)
    (d pp : String) :
    resolve_loop ex mk pp (l ++ [d]) =
      (let p := "/media/pi/" ++ d ++ "/photobooth/"
       if ex p || mk p then p else "") := by
  induction l generalizing pp with
  | nil =>
      simp only [List.nil_append, resolve_loop]
      cases hex : ex ("/media/pi/" ++ d ++ "/photobooth/") <;>
        cases hmk : mk ("/media/pi/" ++ d ++ "/photobooth/") <;>
        simp [resolve_loop, hex, hmk]
  | cons a l ih =>
      simp only [List.cons_append, resolve_loop]
      exact ih _

/-- Auxiliary: a candidate mount path is never the empty string. -/
theorem media_path_ne_empty (d : String) :
    ("/media/pi/" ++ d ++ "/photobooth/") ≠ "" := by
  intro h
  have hd := congrArg String.data h
  simp only [String.data_append] at hd
  exact absurd hd (by simp)

/-- C1 amended: `set_default_path` is decided by the last-listed mount
alone: if the listing is nonempty and its last mount accepts (its path
already exists or `makedirs` succeeds), that mount's path is returned —
even when earlier mounts also accepted; otherwise (empty listing, or a
failing last mount) the fallback `<script_dir>/photobooth/` is returned,
regardless of earlier successes.  In particular, for zero mounts or
all-failing mounts the fallback is returned, and the unique accepting
mount is chosen exactly when it is the last one listed. -/
theorem c1_amended_last_mount (script_dir : String) (listing : List String)
    (ex mk : String → Bool) :
    set_default_path script_dir listing ex mk =
      match listing.getLast? with
      | none => script_dir ++ "/photobooth/"
      | some d =>
          let p := "/media/pi/" ++ d ++ "/photobooth/"
          if ex p || mk p then p else script_dir ++ "/photobooth/" := by
  rcases List.eq_nil_or_concat listing with rfl | ⟨l, d, rfl⟩
  · rfl
  · rw [List.concat_eq_append, List.getLast?_concat]
    simp only [set_default_path, resolve_loop_concat]
    cases hacc : (ex ("/media/pi/" ++ d ++ "/photobooth/")
        || mk ("/media/pi/" ++ d ++ "/photobooth/")) <;>
      simp [hacc, media_path_ne_empty d]

/-- C4: with the trigger input reading pressed (low) at process start,
startup exits before the camera preview is started and before any
overlay is created, for any camera state; with the trigger not pressed
(and the camera initialising), startup proceeds into the idle loop,
starting the preview and creating the two intro overlays. -/
theorem c4_startup_button_guard (cameraOk : Bool) (fresh : Nat) :
    (program_startup true cameraOk fresh).2 = Outcome.exitStartupButton ∧
    createdUids (program_startup true cameraOk fresh).1 = [] ∧
    ((program_startup true cameraOk fresh).1.contains Ev.startPreview = false) ∧
    (program_startup false true fresh).2 = Outcome.enteredIdleLoop ∧
    Ev.startPreview ∈ (program_startup false true fresh).1 ∧
    createdUids (program_startup false true fresh).1 = [fresh, fresh + 1] := by
  refine ⟨rfl, rfl, rfl, rfl, ?_, rfl⟩
  simp [program_startup, overlay_image]

/-- C4 witness: the guard theorem applied at a concrete camera state. -/
theorem c4_startup_button_guard_witness :
    (program_startup true true 0).2 = Outcome.exitStartupButton :=
  (c4_startup_button_guard true 0).1

/-- C9: whatever trace `main` produced, any fault leaving the loop is
followed by exactly one fault-specific log line and the single
cleanup-and-exit suffix (stop preview, GPIO cleanup, process exit); no
captures or overlay creations happen after the fault (no retry), and a
`KeyboardInterrupt` is logged as a warning, distinctly from the error
log of every other exception, while taking the same cleanup path. -/
theorem c9_fatal_fault_handler (mainTrace : List Ev) (fault : Fault) :
    run_program mainTrace fault =
      mainTrace ++ [fault_log fault, Ev.logInfo "End of session",
        Ev.stopPreview, Ev.gpioCleanup, Ev.exitProcess] ∧
    capturesOf (run_program mainTrace fault) = capturesOf mainTrace ∧
    createdUids (run_program mainTrace fault) = createdUids mainTrace ∧
    fault_log Fault.keyboardInterrupt = Ev.logWarn "keyboard interrupt" ∧
    (∀ m : String, fault_log (Fault.exception m)
        = Ev.logError ("Unexpected error: " ++ m)) ∧
    (∀ m : String,
      (fault_log Fault.keyboardInterrupt == fault_log (Fault.exception m)) = false) := by
  refine ⟨?_, ?_, ?_, rfl, fun m => rfl, fun m => ?_⟩
  · simp [run_program, cleanup_trace]
  · cases fault <;> simp [run_program, cleanup_trace, capturesOf, fault_log]
  · cases fault <;> simp [run_program, cleanup_trace, createdUids, fault_log]
  · simp [fault_log]

/-- C9 witness: the handler theorem applied to the empty main trace and
a keyboard interrupt. -/
theorem c9_fatal_fault_handler_witness :
    run_program [] Fault.keyboardInterrupt =
      [fault_log Fault.keyboardInterrupt, Ev.logInfo "End of session",
       Ev.stopPreview, Ev.gpioCleanup, Ev.exitProcess] :=
  (c9_fatal_fault_handler [] Fault.keyboardInterrupt).1

/-- C7: in the idle loop every edge-less poll increments the tick
counter (resetting at `2 * blink_speed`); starting from counter 0 the
attract overlay's alpha is at 255 and the LED on exactly at tick 10,
alpha 0 and LED off again at tick 20 with the counter reset, and the
blink repeats with period `2 * blink_speed` from then on. -/
theorem c7_idle_blink (s : IdleState) (a l : Nat) (n : Nat) :
    ((idle_step s).i = if s.i + 1 = 2 * blink_speed then 0 else s.i + 1) ∧
    blink_speed = 10 ∧
    idle_step^[10] ⟨0, a, l⟩ = ⟨10, 255, 1⟩ ∧
    idle_step^[20] ⟨0, a, l⟩ = ⟨0, 0, 0⟩ ∧
    idle_step^[n + 20] ⟨0, a, l⟩ = idle_step^[n] ⟨0, 0, 0⟩ := by
  refine ⟨?_, rfl, rfl, rfl, ?_⟩
  · obtain ⟨i0, alpha, led⟩ := s
    simp only [idle_step, blink_speed]
    split_ifs <;> first | rfl | omega
  · rw [Function.iterate_add_apply]
    rfl

/-- C10: the capture for-loop reuses the idle loop's tick variable and
leaves it at 2, so after a session the first alpha-raise/LED-on happens
after only 8 edge-less polls (instead of 10 from a fresh counter, where
8 polls produce no raise), after which the blink returns to the normal
20-poll cadence. -/
theorem c10_tick_counter_reused (filepath stem : String) (i1 i2 : Handle)
    (f : Nat) (a l : Nat) :
    (session filepath stem i1 i2 f).iFinal = 2 ∧
    idle_step^[8] ⟨2, a, l⟩ = ⟨10, 255, 1⟩ ∧
    (∀ k : Nat, k < 8 → idle_step^[k] ⟨2, a, l⟩ = ⟨2 + k, a, l⟩) ∧
    idle_step^[8] ⟨0, a, l⟩ = ⟨8, a, l⟩ ∧
    idle_step^[18] ⟨2, a, l⟩ = ⟨0, 0, 0⟩ ∧
    (∀ n : Nat, idle_step^[n + 18] ⟨2, a, l⟩ = idle_step^[n] ⟨0, 0, 0⟩) := by
  refine ⟨rfl, rfl, ?_, rfl, rfl, ?_⟩
  · intro k hk
    interval_cases k <;> rfl
  · intro n
    rw [Function.iterate_add_apply]
    rfl

/-- C10 witness: the reuse theorem applied at concrete inputs, with the
bounded-poll hypothesis discharged at `k = 5`. -/
theorem c10_tick_counter_reused_witness :
    idle_step^[5] ⟨2, 0, 0⟩ = ⟨7, 0, 0⟩ :=
  (c10_tick_counter_reused "p/" "s" Handle.sentinel Handle.sentinel 0 0 0).2.2.1
    5 (by decide)

/-- C6: `take_photo` emits the 3-2-1 countdown, one annotation and one
one-second sleep per tick, clears the annotation, and performs exactly
one capture to `<path><stem>_<index>of3.jpg`; at the scenario's stem and
path, indices 1, 2, 3 yield the three expected filenames. -/
theorem c6_take_photo_sequence (n : Nat) (filepath stem : String) :
    take_photo n filepath stem =
      [Ev.annotate "             ...3", Ev.sleepSec 1,
       Ev.annotate "             ...2", Ev.sleepSec 1,
       Ev.annotate "             ...1", Ev.sleepSec 1,
       Ev.annotate "",
       Ev.capture (filepath ++ stem ++ "_" ++ toString n ++ "of3.jpg"),
       Ev.logInfo ("Photo " ++ toString n ++ " saved")] ∧
    capturesOf (take_photo n filepath stem)
      = [filepath ++ stem ++ "_" ++ toString n ++ "of3.jpg"] ∧
    capturesOf (take_photo 1 "/media/pi/USB1/photobooth/" "2024-01-01_12-00-00")
      = ["/media/pi/USB1/photobooth/2024-01-01_12-00-00_1of3.jpg"] ∧
    capturesOf (take_photo 2 "/media/pi/USB1/photobooth/" "2024-01-01_12-00-00")
      = ["/media/pi/USB1/photobooth/2024-01-01_12-00-00_2of3.jpg"] ∧
    capturesOf (take_photo 3 "/media/pi/USB1/photobooth/" "2024-01-01_12-00-00")
      = ["/media/pi/USB1/photobooth/2024-01-01_12-00-00_3of3.jpg"] := by
  exact ⟨rfl, rfl, rfl, rfl, rfl⟩

set_option maxHeartbeats 1600000 in
/-- C3: during playback of the 3 photos (uids 1, 2, 3 when the fresh
counter starts at 0), each photo's overlay is created before the
previous photo's overlay is removed (create of 2 at trace index 8
precedes remove of 1 at index 10; create of 3 at 13 precedes remove of
2 at 15), so from the first photo overlay's creation (index 5) up to
the last one's removal (index 18) at least one photo overlay is live;
after the loop the final photo's overlay is released and the done
overlay is shown for 2 seconds and removed. -/
theorem c3_playback_no_blank_frame (filepath stem : String) :
    (playback 3 filepath stem 0).1.findIdx? (isCreateOf 1) = some 5 ∧
    (playback 3 filepath stem 0).1.findIdx? (isRemoveOf 3) = some 18 ∧
    (playback 3 filepath stem 0).1.findIdx? (isCreateOf 2) = some 8 ∧
    (playback 3 filepath stem 0).1.findIdx? (isRemoveOf 1) = some 10 ∧
    (playback 3 filepath stem 0).1.findIdx? (isCreateOf 3) = some 13 ∧
    (playback 3 filepath stem 0).1.findIdx? (isRemoveOf 2) = some 15 ∧
    (8 : Nat) < 10 ∧ (13 : Nat) < 15 ∧
    (∀ k : Nat, 5 < k → k ≤ 18 →
      1 ≤ liveCount 1 3 ((playback 3 filepath stem 0).1.take k)) ∧
    (playback 3 filepath stem 0).1.drop 18 =
      [Ev.removeOverlay 3, Ev.logInfo "Removed overlay 6",
       Ev.createOverlay "Assets/all_done.png" 4 4,
       Ev.logInfo "Created overlay Assets/all_done.png",
       Ev.sleepSec 2, Ev.removeOverlay 4, Ev.logInfo "Removed overlay 4"] := by
  have ht : (playback 3 filepath stem 0).1 =
      [Ev.createOverlay "Assets/processing.png" 3 0,
       Ev.logInfo "Created overlay Assets/processing.png",
       Ev.sleepSec 2,
       Ev.removeOverlay 0,
       Ev.logInfo "Removed overlay 3",
       Ev.createOverlay (filepath ++ stem ++ "_" ++ "1" ++ "of" ++ "3" ++ ".jpg") 6 1,
       Ev.logInfo ("Created overlay "
         ++ (filepath ++ stem ++ "_" ++ "1" ++ "of" ++ "3" ++ ".jpg")),
       Ev.sleepSec 2,
       Ev.createOverlay (filepath ++ stem ++ "_" ++ "2" ++ "of" ++ "3" ++ ".jpg") 6 2,
       Ev.logInfo ("Created overlay "
         ++ (filepath ++ stem ++ "_" ++ "2" ++ "of" ++ "3" ++ ".jpg")),
       Ev.removeOverlay 1,
       Ev.logInfo "Removed overlay 6",
       Ev.sleepSec 2,
       Ev.createOverlay (filepath ++ stem ++ "_" ++ "3" ++ "of" ++ "3" ++ ".jpg") 6 3,
       Ev.logInfo ("Created overlay "
         ++ (filepath ++ stem ++ "_" ++ "3" ++ "of" ++ "3" ++ ".jpg")),
       Ev.removeOverlay 2,
       Ev.logInfo "Removed overlay 6",
       Ev.sleepSec 2,
       Ev.removeOverlay 3,
       Ev.logInfo "Removed overlay 6",
       Ev.createOverlay "Assets/all_done.png" 4 4,
       Ev.logInfo "Created overlay Assets/all_done.png",
       Ev.sleepSec 2,
       Ev.removeOverlay 4,
       Ev.logInfo "Removed overlay 4"] := rfl
  simp only [ht]
  refine ⟨rfl, rfl, rfl, rfl, rfl, rfl, by norm_num, by norm_num, ?_, rfl⟩
  intro k h5 h18
  interval_cases k <;> exact Nat.le_of_ble_eq_true rfl

/-- C3 witness: the overlap theorem applied at the scenario's path and
stem with the live-overlay bound checked at position 10. -/
theorem c3_playback_no_blank_frame_witness :
    1 ≤ liveCount 1 3
      ((playback 3 "/media/pi/USB1/photobooth/" "2024-01-01_12-00-00" 0).1.take 10) :=
  (c3_playback_no_blank_frame "/media/pi/USB1/photobooth/"
      "2024-01-01_12-00-00").2.2.2.2.2.2.2.2.1 10 (by decide) (by decide)

set_option maxHeartbeats 4000000 in
/-- C2: one full button-press cycle starting from the live intro pair
`u1, u2` captures exactly the three photos `1of3`, `2of3`, `3of3` in
that order; it creates exactly ten overlays (three get-ready, one
processing, three playback photos, one done, and the two new intro
overlays, with strictly increasing uids); within the cycle it releases
the old intro pair and every created overlay except the two new intro
overlays, which are exactly the returned active pair; and every overlay
created during the cycle is eventually released once the next cycle
begins (the next cycle removes its intro pair first). -/
theorem c2_session_lifecycle (filepath stem filepath2 stem2 : String)
    (u1 u2 f : Nat) :
    capturesOf (session filepath stem (Handle.ov u1 3) (Handle.ov u2 4) f).trace =
      [filepath ++ stem ++ "_" ++ toString 1 ++ "of3.jpg",
       filepath ++ stem ++ "_" ++ toString 2 ++ "of3.jpg",
       filepath ++ stem ++ "_" ++ toString 3 ++ "of3.jpg"] ∧
    createdUids (session filepath stem (Handle.ov u1 3) (Handle.ov u2 4) f).trace =
      [f, f + 1, f + 2, f + 3, f + 4, f + 5, f + 6, f + 7, f + 8, f + 9] ∧
    createdNames (session filepath stem (Handle.ov u1 3) (Handle.ov u2 4) f).trace =
      ["Assets/get_ready_1.png", "Assets/get_ready_2.png", "Assets/get_ready_3.png",
       "Assets/processing.png",
       filepath ++ stem ++ "_" ++ toString 1 ++ "of" ++ toString 3 ++ ".jpg",
       filepath ++ stem ++ "_" ++ toString 2 ++ "of" ++ toString 3 ++ ".jpg",
       filepath ++ stem ++ "_" ++ toString 3 ++ "of" ++ toString 3 ++ ".jpg",
       "Assets/all_done.png", "Assets/intro_1.png", "Assets/intro_2.png"] ∧
    (session filepath stem (Handle.ov u1 3) (Handle.ov u2 4) f).intro1
      = Handle.ov (f + 8) 3 ∧
    (session filepath stem (Handle.ov u1 3) (Handle.ov u2 4) f).intro2
      = Handle.ov (f + 9) 4 ∧
    releasedUids (session filepath stem (Handle.ov u1 3) (Handle.ov u2 4) f).trace =
      [u1, u2, f, f + 1, f + 2, f + 3, f + 4, f + 5, f + 6, f + 7] ∧
    (∀ u ∈ createdUids (session filepath stem (Handle.ov u1 3) (Handle.ov u2 4) f).trace,
      u ∈ releasedUids
        ((session filepath stem (Handle.ov u1 3) (Handle.ov u2 4) f).trace ++
          (session filepath2 stem2
            (session filepath stem (Handle.ov u1 3) (Handle.ov u2 4) f).intro1
            (session filepath stem (Handle.ov u1 3) (Handle.ov u2 4) f).intro2
            (session filepath stem (Handle.ov u1 3) (Handle.ov u2 4) f).fresh).trace)) := by
  refine ⟨rfl, rfl, rfl, rfl, rfl, rfl, ?_⟩
  intro u hu
  have hc : createdUids (session filepath stem (Handle.ov u1 3) (Handle.ov u2 4) f).trace =
      [f, f + 1, f + 2, f + 3, f + 4, f + 5, f + 6, f + 7, f + 8, f + 9] := rfl
  rw [hc] at hu
  have hr : releasedUids
      ((session filepath stem (Handle.ov u1 3) (Handle.ov u2 4) f).trace ++
        (session filepath2 stem2
          (session filepath stem (Handle.ov u1 3) (Handle.ov u2 4) f).intro1
          (session filepath stem (Handle.ov u1 3) (Handle.ov u2 4) f).intro2
          (session filepath stem (Handle.ov u1 3) (Handle.ov u2 4) f).fresh).trace) =
      [u1, u2, f, f + 1, f + 2, f + 3, f + 4, f + 5, f + 6, f + 7,
       f + 8, f + 9, f + 10, f + 11, f + 12, f + 13, f + 14, f + 15, f + 16, f + 17] := rfl
  rw [hr]
  simp only [List.mem_cons, List.mem_singleton] at hu ⊢
  rcases hu with rfl | rfl | rfl | rfl | rfl | rfl | rfl | rfl | rfl | rfl | h
  · simp
  · simp
  · simp
  · simp
  · simp
  · simp
  · simp
  · simp
  · simp
  · simp
  · simp at h

/-- C2 witness: the lifecycle theorem applied at concrete paths, stems
and uids, checking that the first overlay created in the cycle is
released within the two-cycle trace. -/
theorem c2_session_lifecycle_witness :
    (100 : Nat) ∈ releasedUids
      ((session "p/" "s" (Handle.ov 7 3) (Handle.ov 8 4) 100).trace ++
        (session "q/" "t"
          (session "p/" "s" (Handle.ov 7 3) (Handle.ov 8 4) 100).intro1
          (session "p/" "s" (Handle.ov 7 3) (Handle.ov 8 4) 100).intro2
          (session "p/" "s" (Handle.ov 7 3) (Handle.ov 8 4) 100).fresh).trace) :=
  (c2_session_lifecycle "p/" "s" "q/" "t" 7 8 100).2.2.2.2.2.2 100 (by decide)
